import Mathlib

/-!
Shallow embedding of the poster-composition core of the `autogreet`
repository (`src/image_tools.py`, `src/poster_engine.py`), together with
theorems checking the frozen claims about it.

Modelling conventions:
* Python `int` is `ℤ`; Python float arithmetic is modelled exactly over `ℚ`
  (the float literal `0.35` is modelled as the rational `7/20`).
* Python `//` on integers is `Int.fdiv` (floor division) and `%` is
  `Int.emod` (for a positive modulus these agree with Python).
* Python `round` is round-half-to-even (`pyRound`); Python `int()` applied
  to a float truncates toward zero (`pyInt`).
* A PIL image is modelled by its dimensions and mode (`PImage`); pixel
  content is irrelevant to every claim.  `Image.open` on raw bytes is
  modelled by passing the already-decoded `PImage` (decode failures of the
  source bytes are outside the claims' scope).
* External effects (HTTP fetch, the background-removal SDK, the MediaPipe
  face detector, the filesystem for fonts) are modelled by explicit
  environment values describing their outcome, and fallible Python code
  becomes `Except`/`Option`.
-/

namespace AutoGreet

/-- Python `round` on an exact rational: round half to even. -/
def pyRound (q : ℚ) : ℤ :=
  if q - ⌊q⌋ < 1/2 then ⌊q⌋
  else if 1/2 < q - ⌊q⌋ then ⌊q⌋ + 1
  else if Int.emod ⌊q⌋ 2 = 0 then ⌊q⌋ else ⌊q⌋ + 1

/-- Python `int()` on an exact rational: truncation toward zero. -/
def pyInt (q : ℚ) : ℤ :=
  if q < 0 then -⌊-q⌋ else ⌊q⌋

/-- Python `a or b` for an optional string `a` ('None' and '""' are falsy). -/
def pyOrS (a : Option String) (b : String) : String :=
  match a with
  | some s => if s = "" then b else s
  | none => b

/-- Python `str.upper()` (ASCII model). -/
def pyUpper (s : String) : String := s.map Char.toUpper

/-- Helper for `pyTitle`: the boolean records whether the previous character
was a cased letter. -/
def pyTitleAux : Bool → List Char → List Char
  | _, [] => []
  | prev, c :: rest =>
      let cased := c.isAlpha
      let c' := if cased then (if prev then c.toLower else c.toUpper) else c
      c' :: pyTitleAux cased rest

/-- Python `str.title()` (ASCII model): first letter of each alphabetic run
upper-cased, the rest lower-cased. -/
def pyTitle (s : String) : String := ⟨pyTitleAux false s.data⟩

/-- A PIL image, abstracted to its size and mode. -/
structure PImage where
  w : ℤ
  h : ℤ
  mode : String
deriving DecidableEq

/-- PIL `convert("RGBA")`: dimensions kept, mode becomes RGBA. -/
def convertRGBA (p : PImage) : PImage := ⟨p.w, p.h, "RGBA"⟩

/-- image_tools.ordinal, modelling the dictionary get
`\x7b1: "st", 2: "nd", 3: "rd"\x7d.get(n % 10, "th")`. -/
def dictGetSuffix (k : ℤ) : String :=
  if k = 1 then "st" else if k = 2 then "nd" else if k = 3 then "rd" else "th"

/-- `ordinal(n)` from `src/image_tools.py`: decimal numeral plus English
ordinal suffix. -/
def ordinal (n : ℤ) : String :=
  let suffix :=
    if 11 ≤ Int.emod n 100 ∧ Int.emod n 100 ≤ 13 then "th"
    else dictGetSuffix (Int.emod n 10)
  toString n ++ suffix

/-- The ordinal rule exactly as the claim words it: "th" when
`n % 100 ∈ [11,13]`, else "st"/"nd"/"rd" when `n % 10` is 1/2/3, else
"th". -/
def ordinalRule (n : ℤ) : String :=
  toString n ++
    (if 11 ≤ Int.emod n 100 ∧ Int.emod n 100 ≤ 13 then "th"
     else if Int.emod n 10 = 1 then "st"
     else if Int.emod n 10 = 2 then "nd"
     else if Int.emod n 10 = 3 then "rd"
     else "th")

/-- Outcome of the optional MediaPipe face-detection capability on one
image: the import can fail (`unavailable`), detection can find nothing
(`noFace`), find a face with a relative bounding box (`face`), or raise
while processing (`raisesExc`). -/
inductive DetectOutcome where
  | unavailable : DetectOutcome
  | noFace : DetectOutcome
  | face (xmin ymin bwidth bheight : ℚ) : DetectOutcome
  | raisesExc (msg : String) : DetectOutcome
deriving DecidableEq

/-- True exactly when the detector raises while processing. -/
def DetectOutcome.isExc : DetectOutcome → Bool
  | .raisesExc _ => true
  | _ => false

/-- image_tools._detect_face_center: `ImportError` is caught and yields
`(None, None)`, as does an empty detection list; a face yields the pixel
center of its relative bounding box; an exception raised by the detector
itself is NOT caught and propagates. -/
def detect_face_center (img : PImage) (env : DetectOutcome) :
    Except String (Option (ℤ × ℤ)) :=
  match env with
  | .unavailable => .ok none
  | .noFace => .ok none
  | .face xmin ymin bw bh =>
      .ok (some (pyInt ((xmin + bw / 2) * (img.w : ℚ)),
                 pyInt ((ymin + bh / 2) * (img.h : ℚ))))
  | .raisesExc m => .error m

/-- The cover-resize dimensions computed at the top of
image_tools._face_aware_crop:
`scale = max(target_w/src_w, target_h/src_h)`, then each dimension is
`round(src * scale)`.  Defined on raw dimensions (the caller guarantees
they are the image's). -/
def resized_dims (srcW srcH targetW targetH : ℤ) : ℤ × ℤ :=
  let scale : ℚ := max ((targetW : ℚ) / (srcW : ℚ)) ((targetH : ℚ) / (srcH : ℚ))
  (pyRound ((srcW : ℚ) * scale), pyRound ((srcH : ℚ) * scale))

/-- Result of `img_resized.crop((left, top, left+target_w, top+target_h))`
together with the crop origin that produced it. -/
structure Crop where
  left : ℤ
  top : ℤ
  img : PImage
deriving DecidableEq

/-- image_tools._face_aware_crop.  A zero source dimension would raise
`ZeroDivisionError` in `target_w / src_w`; a detector exception propagates
(only `ImportError` is handled inside `_detect_face_center`).  Otherwise:
resize to cover, anchor at the detected face center or at the fallback
anchor `(new_w // 2, int(new_h * 0.35))`, take crop origin
`left = max(0, min(cx - target_w // 2, new_w - target_w))`,
`top = max(0, min(cy - target_h // 3, new_h - target_h))`, and crop —
PIL's `crop` always returns a `target_w × target_h` image. -/
def face_aware_crop (img : PImage) (target_w target_h : ℤ)
    (env : DetectOutcome) : Except String Crop :=
  if img.w = 0 ∨ img.h = 0 then .error "ZeroDivisionError"
  else
    let nd := resized_dims img.w img.h target_w target_h
    let new_w := nd.1
    let new_h := nd.2
    match detect_face_center ⟨new_w, new_h, img.mode⟩ env with
    | .error e => .error e
    | .ok found =>
        let c := match found with
          | some p => p
          | none => (Int.fdiv new_w 2, pyInt ((new_h : ℚ) * (7 / 20)))
        let left := max 0 (min (c.1 - Int.fdiv target_w 2) (new_w - target_w))
        let top := max 0 (min (c.2 - Int.fdiv target_h 3) (new_h - target_h))
        .ok ⟨left, top, ⟨target_w, target_h, img.mode⟩⟩

/-- Modelled from the claim wording of C2 (not from the source): identical
to `face_aware_crop` except that in every case the pre-clamp vertical
origin is claimed to be `cy - target_h // 2` (centered per axis). -/
def face_aware_crop_claimC2 (img : PImage) (target_w target_h : ℤ)
    (env : DetectOutcome) : Except String Crop :=
  if img.w = 0 ∨ img.h = 0 then .error "ZeroDivisionError"
  else
    let nd := resized_dims img.w img.h target_w target_h
    let new_w := nd.1
    let new_h := nd.2
    match detect_face_center ⟨new_w, new_h, img.mode⟩ env with
    | .error e => .error e
    | .ok found =>
        let c := match found with
          | some p => p
          | none => (Int.fdiv new_w 2, pyInt ((new_h : ℚ) * (7 / 20)))
        let left := max 0 (min (c.1 - Int.fdiv target_w 2) (new_w - target_w))
        let top := max 0 (min (c.2 - Int.fdiv target_h 2) (new_h - target_h))
        .ok ⟨left, top, ⟨target_w, target_h, img.mode⟩⟩

/-- image_tools.prepare_anniversary_photo: decode (modelled by taking the
decoded image), convert to RGBA, face-aware cover-crop; returns the crop's
image. -/
def prepare_anniversary_photo (img : PImage) (target_w target_h : ℤ)
    (env : DetectOutcome) : Except String PImage :=
  (face_aware_crop (convertRGBA img) target_w target_h env).map (fun c => c.img)

/-- The retry loop of image_tools.remove_background: attempts are numbered
from `i`; a successful attempt returns its decoded result converted to
RGBA, the last failed attempt returns the original converted to RGBA, and
falling out of the loop (possible only when `retries = 0`) is Python's
implicit `None`. -/
def rbLoop (orig : PImage) (att : ℕ → Option PImage) (retries : ℕ) :
    ℕ → Option PImage
  | i =>
    if _h : i < retries then
      match att i with
      | some res => some (convertRGBA res)
      | none =>
          if i < retries - 1 then rbLoop orig att retries (i + 1)
          else some (convertRGBA orig)
    else none
termination_by i => retries - i
decreasing_by omega

/-- image_tools.remove_background: if the SDK import fails, return the
original decoded image converted to RGBA; otherwise run up to `retries`
attempts.  `att i` is the decoded result of attempt `i` (`none` covers any
exception in that attempt); `api_key` is forwarded to the external client
and does not influence the modelled control flow. -/
def remove_background (orig : PImage) (api_key : String) (sdk : Bool)
    (att : ℕ → Option PImage) (retries : ℕ := 3) : Option PImage :=
  let _ := api_key
  if sdk = false then some (convertRGBA orig)
  else rbLoop orig att retries 0

/-- image_tools.prepare_birthday_photo: background removal with the default
3 retries. -/
def prepare_birthday_photo (orig : PImage) (api_key : String) (sdk : Bool)
    (att : ℕ → Option PImage) : Option PImage :=
  remove_background orig api_key sdk att 3

/-- The anchor `(cx, cy)` that `_face_aware_crop` ends up with on the
resized image, by detection outcome: the face's bounding-box center in
pixels when a face is found, otherwise the fallback
`(new_w // 2, int(new_h * 0.35))`. -/
def crop_anchor (newW newH : ℤ) (env : DetectOutcome) : ℤ × ℤ :=
  match env with
  | .face xmin ymin bw bh =>
      (pyInt ((xmin + bw / 2) * (newW : ℚ)), pyInt ((ymin + bh / 2) * (newH : ℚ)))
  | _ => (Int.fdiv newW 2, pyInt ((newH : ℚ) * (7 / 20)))

/-- A calendar date (only the fields the engine reads). -/
structure Date where
  year : ℤ
  month : ℤ
  day : ℤ
deriving DecidableEq

/-- A normalized employee record as consumed by poster_engine: the five
text fields may be null (`emp["..."] or ""` turns null into the empty
string), `photo_url` defaults to `""` via `emp.get`, and `doj` is an
optional date. -/
structure Employee where
  name : Option String
  designation : Option String
  vertical : Option String
  department : Option String
  location : Option String
  photo_url : String
  doj : Option Date
deriving DecidableEq

/-- poster_engine._build_text_lines. -/
def build_text_lines (emp : Employee) (poster_type : String) :
    List (String × String) :=
  let name := pyOrS emp.name ""
  let designation := pyOrS emp.designation ""
  let vertical := pyOrS emp.vertical ""
  let department := pyOrS emp.department ""
  let location := pyOrS emp.location ""
  let name := if poster_type = "birthday" then pyTitle name else pyUpper name
  let line3 :=
    if vertical ≠ "" ∧ department ≠ "" then vertical ++ " - " ++ department
    else if vertical ≠ "" then vertical else department
  [(name, "bold"), (designation, "regular"), (line3, "regular"),
   (location, "regular")]

/-- A font as returned by `_load_font`: either a truetype font loaded
from a path at a size, or Pillow's built-in default font. -/
inductive Font where
  | truetype (path : String) (size : ℤ) : Font
  | default : Font
deriving DecidableEq

/-- The configured font-file paths (`cfg["fonts"]`), each slot optional. -/
structure FontSet where
  regular : Option String
  bold : Option String
  year : Option String
deriving DecidableEq

/-- poster_engine._load_font.  `fs` is the filesystem as seen by the
loader: `none` means the path does not exist, `some false` that
`ImageFont.truetype` raises `IOError`/`OSError` on it, `some true` that it
loads.  An empty path is falsy, so it also yields the default font. -/
def load_font (fs : String → Option Bool) (path : String) (size : ℤ) : Font :=
  if path ≠ "" then
    match fs path with
    | some true => Font.truetype path size
    | some false => Font.default
    | none => Font.default
  else Font.default

/-- The `text_block` configuration: origin plus optional metrics read with
`.get` defaults 48 / 38 / 26. -/
structure TextBlockCfg where
  x : ℤ
  y : ℤ
  line_spacing : Option ℤ
  font_size_name : Option ℤ
  font_size_detail : Option ℤ
deriving DecidableEq

/-- One `draw.text` call: position, text, font, RGB fill. -/
structure DrawnText where
  pos : ℤ × ℤ
  text : String
  font : Font
  fill : ℤ × ℤ × ℤ
deriving DecidableEq

/-- The loop body of poster_engine._draw_text_block: line 0 uses the bold
slot (falling back to regular) at `font_size_name`, later lines the
regular slot at `font_size_detail`; each line advances `y` by
`line_spacing`; fill is opaque white. -/
def draw_lines (cfg : TextBlockCfg) (fonts : FontSet)
    (fs : String → Option Bool) :
    ℕ → ℤ → List (String × String) → List DrawnText
  | _, _, [] => []
  | i, ypos, (text, _wt) :: rest =>
      let font :=
        if i = 0 then
          load_font fs (pyOrS fonts.bold (fonts.regular.getD ""))
            (cfg.font_size_name.getD 38)
        else
          load_font fs (fonts.regular.getD "") (cfg.font_size_detail.getD 26)
      ⟨(cfg.x, ypos), text, font, (255, 255, 255)⟩ ::
        draw_lines cfg fonts fs (i + 1) (ypos + cfg.line_spacing.getD 48) rest

/-- poster_engine._draw_text_block. -/
def draw_text_block (lines : List (String × String)) (cfg : TextBlockCfg)
    (fonts : FontSet) (fs : String → Option Bool) : List DrawnText :=
  draw_lines cfg fonts fs 0 cfg.y lines

/-- A pixel rectangle `\x7bx, y, w, h\x7d`. -/
structure Box where
  x : ℤ
  y : ℤ
  w : ℤ
  h : ℤ
deriving DecidableEq

/-- The `year_label` configuration, all fields read with `.get` defaults
80 / 80 / 64 (a missing `year_label` dict is the all-`none` value). -/
structure YearLabelCfg where
  x : Option ℤ
  y : Option ℤ
  font_size : Option ℤ
deriving DecidableEq

/-- Per-poster-type layout configuration.  `template = none` models a
template path whose `Image.open` raises (missing file): the one
configuration-class failure mode exercised by the claims. -/
structure PosterCfg where
  template : Option PImage
  photo_box : Box
  text_block : TextBlockCfg
  year_label : YearLabelCfg
deriving DecidableEq

/-- The full configuration dict: one layout per poster type plus fonts. -/
structure Cfg where
  birthday : PosterCfg
  anniversary : PosterCfg
  fonts : FontSet
deriving DecidableEq

/-- The secrets dict (only `withoutbg_api_key` is read, via `.get` with
default `""`). -/
structure Secrets where
  withoutbg_api_key : String
deriving DecidableEq

/-- Where a pasted photo ends up on the poster: paste origin and scaled
size. -/
structure Placement where
  x : ℤ
  y : ℤ
  w : ℤ
  h : ℤ
deriving DecidableEq

/-- A composited poster: template canvas, the photo placement when one was
pasted, and every `draw.text` call in order.  (On the anniversary poster
the year label is drawn before the photo is pasted and the text block
after; the model keeps text and photo in separate fields.) -/
structure Poster where
  base : PImage
  photo : Option Placement
  texts : List DrawnText
deriving DecidableEq

/-- poster_engine._place_birthday_photo: contain-fit scale
`min(bw / photo.width, bh / photo.height)` (a zero photo dimension would
raise `ZeroDivisionError`), dimensions rounded, bottom-left anchor
`paste_x = bx`, `paste_y = by + bh - new_h`. -/
def place_birthday_photo (photo : PImage) (box : Box) :
    Except String Placement :=
  if photo.w = 0 ∨ photo.h = 0 then .error "ZeroDivisionError"
  else
    let scale : ℚ :=
      min ((box.w : ℚ) / (photo.w : ℚ)) ((box.h : ℚ) / (photo.h : ℚ))
    let new_w := pyRound ((photo.w : ℚ) * scale)
    let new_h := pyRound ((photo.h : ℚ) * scale)
    .ok ⟨box.x, box.y + box.h - new_h, new_w, new_h⟩

/-- External outcomes consumed by generate_birthday_poster: the photo
download (`fetch`, an error models any download or decode exception), the
background-removal SDK (`sdk`, `att` as in `remove_background`), and the
filesystem for fonts. -/
structure BirthdayEnv where
  fetch : Except String PImage
  sdk : Bool
  att : ℕ → Option PImage
  fonts_fs : String → Option Bool

/-- External outcomes consumed by generate_anniversary_poster, plus the
system clock used when the `today` argument is `None`. -/
structure AnnivEnv where
  fetch : Except String PImage
  detect : DetectOutcome
  fonts_fs : String → Option Bool
  sys_today : Date

/-- poster_engine.generate_birthday_poster.  The template failing to open
propagates; the entire photo branch (download, preparation, placement) is
wrapped in `try/except Exception: pass`, so any failure there yields a
photo-less poster; the text block is always drawn.  The `today` parameter
is accepted and never read. -/
def generate_birthday_poster (emp : Employee) (cfg : Cfg) (secrets : Secrets)
    (today : Option Date) (env : BirthdayEnv) : Except String Poster :=
  let _ := today
  let b := cfg.birthday
  match b.template with
  | none => .error "FileNotFoundError: template"
  | some tmpl =>
      let placed : Option Placement :=
        if emp.photo_url ≠ "" then
          match env.fetch with
          | .error _ => none
          | .ok img =>
              match prepare_birthday_photo img secrets.withoutbg_api_key
                  env.sdk env.att with
              | none => none
              | some photo =>
                  match place_birthday_photo photo b.photo_box with
                  | .error _ => none
                  | .ok pl => some pl
        else none
      .ok ⟨convertRGBA tmpl, placed,
           draw_text_block (build_text_lines emp "birthday") b.text_block
             cfg.fonts env.fonts_fs⟩

/-- poster_engine.generate_anniversary_poster.  `today` defaults to the
system date; `years = today.year - doj.year` (0 without a `doj`); the
ordinal year label is drawn first with the year/bold/regular font chain;
the photo branch is wrapped in `try/except Exception: pass` and pastes the
prepared crop at the box's top-left corner; the text block is always
drawn. -/
def generate_anniversary_poster (emp : Employee) (cfg : Cfg)
    (secrets : Secrets) (today : Option Date) (env : AnnivEnv) :
    Except String Poster :=
  let _ := secrets
  let td := today.getD env.sys_today
  let a := cfg.anniversary
  match a.template with
  | none => .error "FileNotFoundError: template"
  | some tmpl =>
      let years : ℤ := match emp.doj with
        | some d => td.year - d.year
        | none => 0
      let ylc := a.year_label
      let year_font := load_font env.fonts_fs
        (pyOrS cfg.fonts.year (pyOrS cfg.fonts.bold (cfg.fonts.regular.getD "")))
        (ylc.font_size.getD 64)
      let year_text : DrawnText :=
        ⟨(ylc.x.getD 80, ylc.y.getD 80), ordinal years, year_font,
         (255, 255, 255)⟩
      let placed : Option Placement :=
        if emp.photo_url ≠ "" then
          match env.fetch with
          | .error _ => none
          | .ok img =>
              match prepare_anniversary_photo img a.photo_box.w a.photo_box.h
                  env.detect with
              | .error _ => none
              | .ok photo => some ⟨a.photo_box.x, a.photo_box.y, photo.w, photo.h⟩
        else none
      .ok ⟨convertRGBA tmpl, placed,
           year_text :: draw_text_block (build_text_lines emp "anniversary")
             a.text_block cfg.fonts env.fonts_fs⟩

/-- A sample employee record used to instantiate witnesses. -/
def sampleEmployee : Employee :=
  ⟨some "john doe", some "Engineer", some "Sales", some "Tech", some "Pune",
   "http sample photo", some ⟨2015, 6, 1⟩⟩

/-- A sample template image used to instantiate witnesses. -/
def sampleTemplate : PImage := ⟨800, 600, "RGB"⟩

/-- A sample per-poster layout used to instantiate witnesses. -/
def samplePosterCfg : PosterCfg :=
  ⟨some sampleTemplate, ⟨40, 50, 300, 360⟩, ⟨60, 420, none, none, none⟩,
   ⟨some 70, some 90, some 64⟩⟩

/-- A sample configuration used to instantiate witnesses. -/
def sampleCfg : Cfg := ⟨samplePosterCfg, samplePosterCfg, ⟨none, none, none⟩⟩

/-- A sample anniversary environment whose detector raises. -/
def sampleAnnivEnv : AnnivEnv :=
  ⟨Except.ok ⟨400, 300, "RGB"⟩, DetectOutcome.raisesExc "boom",
   fun _ => none, ⟨2024, 1, 1⟩⟩

/-- A sample birthday environment whose photo download fails. -/
def sampleBirthdayEnv : BirthdayEnv :=
  ⟨Except.error "connection error", true, fun _ => none, fun _ => none⟩

/-- C4: for every integer n ≥ 0, `ordinal n` follows the stated suffix rule,
and it maps each listed boundary input to the listed output. -/
theorem C4_ordinal_correct :
    (∀ n : ℤ, 0 ≤ n → ordinal n = ordinalRule n) ∧
    (ordinal 0 = "0th" ∧ ordinal 1 = "1st" ∧ ordinal 2 = "2nd" ∧
     ordinal 3 = "3rd" ∧ ordinal 4 = "4th" ∧ ordinal 10 = "10th" ∧
     ordinal 11 = "11th" ∧ ordinal 12 = "12th" ∧ ordinal 13 = "13th" ∧
     ordinal 14 = "14th" ∧ ordinal 20 = "20th" ∧ ordinal 21 = "21st" ∧
     ordinal 22 = "22nd" ∧ ordinal 23 = "23rd" ∧ ordinal 100 = "100th" ∧
     ordinal 101 = "101st" ∧ ordinal 111 = "111th" ∧ ordinal 112 = "112th" ∧
     ordinal 113 = "113th" ∧ ordinal 121 = "121st") := by
  constructor
  · intro n _
    unfold ordinal ordinalRule dictGetSuffix
    rcases em (11 ≤ Int.emod n 100 ∧ Int.emod n 100 ≤ 13) with h | h
    · simp [h]
    · simp only [if_neg h]
  · exact ⟨rfl, rfl, rfl, rfl, rfl, rfl, rfl, rfl, rfl, rfl, rfl, rfl, rfl,
      rfl, rfl, rfl, rfl, rfl, rfl, rfl⟩

/-- C4's universally quantified part has the hypothesis `0 ≤ n`; this
discharges it at the concrete input 112. -/
theorem C4_ordinal_correct_witness :
    ordinal 112 = ordinalRule 112 :=
  C4_ordinal_correct.1 112 (by decide)

/-- The clamp `max 0 (min a hi)` used for both crop-origin axes lands in
`[0, hi]` whenever `hi` is nonnegative. -/
theorem clamp_mem (a hi : ℤ) (h : 0 ≤ hi) :
    0 ≤ max 0 (min a hi) ∧ max 0 (min a hi) ≤ hi :=
  ⟨le_max_left 0 _, max_le h (min_le_right a hi)⟩

/-- Round-half-to-even never rounds below the floor. -/
theorem floor_le_pyRound (q : ℚ) : ⌊q⌋ ≤ pyRound q := by
  unfold pyRound
  split_ifs <;> omega

/-- Round-half-to-even never rounds above the ceiling. -/
theorem pyRound_le_ceil (q : ℚ) : pyRound q ≤ ⌈q⌉ := by
  unfold pyRound
  split_ifs with h1 h2 h3
  · exact Int.floor_le_ceil q
  · have hlt : (⌊q⌋ : ℚ) < q := by linarith
    have h4 := Int.lt_ceil.mpr hlt
    omega
  · exact Int.floor_le_ceil q
  · have hge : (1 : ℚ) / 2 ≤ q - ⌊q⌋ := le_of_not_lt h1
    have hlt : (⌊q⌋ : ℚ) < q := by linarith
    have h4 := Int.lt_ceil.mpr hlt
    omega

/-- An integer upper bound on a rational is an upper bound on its
Python-rounding. -/
theorem pyRound_le_of_le (q : ℚ) (n : ℤ) (h : q ≤ (n : ℚ)) :
    pyRound q ≤ n := by
  have h1 := pyRound_le_ceil q
  have h2 : ⌈q⌉ ≤ n := Int.ceil_le.mpr h
  omega

/-- An integer lower bound on a rational is a lower bound on its
Python-rounding. -/
theorem le_pyRound_of_le (n : ℤ) (q : ℚ) (h : (n : ℚ) ≤ q) :
    n ≤ pyRound q := by
  have h1 := floor_le_pyRound q
  have h2 : n ≤ ⌊q⌋ := Int.le_floor.mpr h
  omega

/-- Closed form of `face_aware_crop` for every non-raising detection
outcome: the crop origin is the per-axis clamp of
`anchor - (target_w // 2, target_h // 3)` and the crop image has exactly
the target dimensions. -/
theorem face_aware_crop_eq (img : PImage) (tw th : ℤ) (env : DetectOutcome)
    (h0 : ¬ (img.w = 0 ∨ img.h = 0)) (henv : env.isExc = false) :
    face_aware_crop img tw th env = Except.ok
      ⟨max 0 (min ((crop_anchor (resized_dims img.w img.h tw th).1
                      (resized_dims img.w img.h tw th).2 env).1 - Int.fdiv tw 2)
                  ((resized_dims img.w img.h tw th).1 - tw)),
       max 0 (min ((crop_anchor (resized_dims img.w img.h tw th).1
                      (resized_dims img.w img.h tw th).2 env).2 - Int.fdiv th 3)
                  ((resized_dims img.w img.h tw th).2 - th)),
       ⟨tw, th, img.mode⟩⟩ := by
  unfold face_aware_crop
  rw [if_neg h0]
  cases env with
  | unavailable => rfl
  | noFace => rfl
  | face a b c d => rfl
  | raisesExc m => simp [DetectOutcome.isExc] at henv

/-- Claim C1: for a decoded source image and positive target dimensions no
larger than the resized image, `prepare_anniversary_photo` produces an
image of exactly the target dimensions, with the crop origin computed by
`_face_aware_crop` clamped into `[0, resized - target]` on each axis,
whatever the detection outcome (short of the detector raising). -/
theorem C1_anniversary_crop_dims_and_origin
    (img : PImage) (tw th : ℤ) (env : DetectOutcome)
    (hsw : 0 < img.w) (hsh : 0 < img.h) (_htw : 0 < tw) (_hth : 0 < th)
    (henv : env.isExc = false)
    (hW : tw ≤ (resized_dims img.w img.h tw th).1)
    (hH : th ≤ (resized_dims img.w img.h tw th).2) :
    ∃ c : Crop,
      face_aware_crop (convertRGBA img) tw th env = Except.ok c ∧
      prepare_anniversary_photo img tw th env = Except.ok c.img ∧
      c.img.w = tw ∧ c.img.h = th ∧
      0 ≤ c.left ∧ c.left ≤ (resized_dims img.w img.h tw th).1 - tw ∧
      0 ≤ c.top ∧ c.top ≤ (resized_dims img.w img.h tw th).2 - th := by
  have h0 : ¬ ((convertRGBA img).w = 0 ∨ (convertRGBA img).h = 0) := by
    simp only [convertRGBA]
    omega
  have heq := face_aware_crop_eq (convertRGBA img) tw th env h0 henv
  have h1 : 0 ≤ (resized_dims img.w img.h tw th).1 - tw := by omega
  have h2 : 0 ≤ (resized_dims img.w img.h tw th).2 - th := by omega
  refine ⟨_, heq, ?_, rfl, rfl,
    (clamp_mem _ _ h1).1, (clamp_mem _ _ h1).2,
    (clamp_mem _ _ h2).1, (clamp_mem _ _ h2).2⟩
  unfold prepare_anniversary_photo
  rw [heq]
  rfl

/-- Claim C1, applied at a 100×200 source, 50×60 target and no detected
face (resized dimensions 50×100). -/
theorem C1_anniversary_crop_dims_and_origin_witness :
    ∃ c : Crop,
      face_aware_crop (convertRGBA ⟨100, 200, "RGB"⟩) 50 60
        DetectOutcome.noFace = Except.ok c ∧
      prepare_anniversary_photo ⟨100, 200, "RGB"⟩ 50 60
        DetectOutcome.noFace = Except.ok c.img ∧
      c.img.w = 50 ∧ c.img.h = 60 ∧
      0 ≤ c.left ∧ c.left ≤ (resized_dims 100 200 50 60).1 - 50 ∧
      0 ≤ c.top ∧ c.top ≤ (resized_dims 100 200 50 60).2 - 60 :=
  C1_anniversary_crop_dims_and_origin ⟨100, 200, "RGB"⟩ 50 60
    DetectOutcome.noFace (by decide) (by decide) (by decide) (by decide) rfl
    (by norm_num [resized_dims, pyRound, max_def])
    (by norm_num [resized_dims, pyRound, max_def])

/-- Claim C2 is false as stated: at a 100×200 source resized to 50×100
with no face found, the code's crop top is 15 (`cy - targetH // 3`,
clamped), while the claimed centered origin `cy - targetH // 2` would give
5. -/
theorem C2_counterexample :
    face_aware_crop ⟨100, 200, "RGBA"⟩ 50 60 DetectOutcome.noFace =
      Except.ok ⟨0, 15, ⟨50, 60, "RGBA"⟩⟩ ∧
    face_aware_crop_claimC2 ⟨100, 200, "RGBA"⟩ 50 60 DetectOutcome.noFace =
      Except.ok ⟨0, 5, ⟨50, 60, "RGBA"⟩⟩ ∧
    face_aware_crop ⟨100, 200, "RGBA"⟩ 50 60 DetectOutcome.noFace ≠
      face_aware_crop_claimC2 ⟨100, 200, "RGBA"⟩ 50 60 DetectOutcome.noFace := by
  have hcode : face_aware_crop ⟨100, 200, "RGBA"⟩ 50 60 DetectOutcome.noFace =
      Except.ok ⟨0, 15, ⟨50, 60, "RGBA"⟩⟩ := by
    norm_num [face_aware_crop, resized_dims, detect_face_center, pyRound,
      pyInt, Int.fdiv, max_def, min_def]
  have hclaim : face_aware_crop_claimC2 ⟨100, 200, "RGBA"⟩ 50 60
      DetectOutcome.noFace = Except.ok ⟨0, 5, ⟨50, 60, "RGBA"⟩⟩ := by
    norm_num [face_aware_crop_claimC2, resized_dims, detect_face_center,
      pyRound, pyInt, Int.fdiv, max_def, min_def]
  refine ⟨hcode, hclaim, ?_⟩
  rw [hcode, hclaim]
  intro hcontra
  simp only [Except.ok.injEq, Crop.mk.injEq] at hcontra
  omega

/-- Claim C2 as amended: in the fallback case the synthetic anchor is
`(resizedW // 2, int(0.35 * resizedH))` and the pre-clamp crop origin is
`left = cx - targetW // 2`, `top = cy - targetH // 3` — the
`targetH // 3` vertical offset applies in the fallback case too, not only
when a face is detected. -/
theorem C2_amended_fallback_origin (img : PImage) (tw th : ℤ)
    (env : DetectOutcome)
    (hsw : 0 < img.w) (hsh : 0 < img.h)
    (henv : env = DetectOutcome.unavailable ∨ env = DetectOutcome.noFace) :
    ∃ c : Crop,
      face_aware_crop img tw th env = Except.ok c ∧
      c.left = max 0 (min (Int.fdiv (resized_dims img.w img.h tw th).1 2
                             - Int.fdiv tw 2)
                          ((resized_dims img.w img.h tw th).1 - tw)) ∧
      c.top = max 0 (min (pyInt (((resized_dims img.w img.h tw th).2 : ℚ)
                               * (7 / 20)) - Int.fdiv th 3)
                         ((resized_dims img.w img.h tw th).2 - th)) := by
  have h0 : ¬ (img.w = 0 ∨ img.h = 0) := by omega
  rcases henv with h | h <;> subst h
  · exact ⟨_, face_aware_crop_eq img tw th _ h0 rfl, rfl, rfl⟩
  · exact ⟨_, face_aware_crop_eq img tw th _ h0 rfl, rfl, rfl⟩

/-- Claim C2 (amended), applied at the 100×200 source with a 50×60 target
and no face found. -/
theorem C2_amended_fallback_origin_witness :
    ∃ c : Crop,
      face_aware_crop ⟨100, 200, "RGBA"⟩ 50 60 DetectOutcome.noFace =
        Except.ok c ∧
      c.left = max 0 (min (Int.fdiv (resized_dims 100 200 50 60).1 2
                             - Int.fdiv 50 2)
                          ((resized_dims 100 200 50 60).1 - 50)) ∧
      c.top = max 0 (min (pyInt (((resized_dims 100 200 50 60).2 : ℚ)
                               * (7 / 20)) - Int.fdiv 60 3)
                         ((resized_dims 100 200 50 60).2 - 60)) :=
  C2_amended_fallback_origin ⟨100, 200, "RGBA"⟩ 50 60 DetectOutcome.noFace
    (by decide) (by decide) (Or.inr rfl)

/-- Claim C3 is false as stated: when the detector raises while
processing, the failure propagates out of `prepare_anniversary_photo`
instead of producing a fallback crop (only `ImportError` is handled
inside `_detect_face_center`). -/
theorem C3_counterexample :
    prepare_anniversary_photo ⟨100, 200, "RGB"⟩ 50 60
      (DetectOutcome.raisesExc "mediapipe error") =
      Except.error "mediapipe error" := rfl

/-- A detector exception always makes `prepare_anniversary_photo` return
an error (either the detector's own or, for a degenerate zero-dimension
source, the earlier `ZeroDivisionError`). -/
theorem prepare_raisesExc_isError (img : PImage) (tw th : ℤ) (m : String) :
    ∃ e, prepare_anniversary_photo img tw th (DetectOutcome.raisesExc m) =
      Except.error e := by
  unfold prepare_anniversary_photo face_aware_crop
  rcases em ((convertRGBA img).w = 0 ∨ (convertRGBA img).h = 0) with h | h
  · rw [if_pos h]
    exact ⟨_, rfl⟩
  · rw [if_neg h]
    exact ⟨_, rfl⟩

/-- Claim C3 as amended: a missing face-detection capability is absorbed
inside photo preparation and is equivalent to finding no face, but a
detector exception propagates out of `prepare_anniversary_photo`; it is
absorbed one level up, by `generate_anniversary_poster`, which still
returns a (photo-less) poster. -/
theorem C3_amended_detection_failure_handling :
    (∀ (img : PImage) (tw th : ℤ), img.w ≠ 0 → img.h ≠ 0 →
       prepare_anniversary_photo img tw th DetectOutcome.unavailable =
         prepare_anniversary_photo img tw th DetectOutcome.noFace ∧
       ∃ c : Crop,
         face_aware_crop (convertRGBA img) tw th DetectOutcome.unavailable =
           Except.ok c) ∧
    (∀ (img : PImage) (tw th : ℤ) (m : String), img.w ≠ 0 → img.h ≠ 0 →
       prepare_anniversary_photo img tw th (DetectOutcome.raisesExc m) =
         Except.error m) ∧
    (∀ (emp : Employee) (cfg : Cfg) (secrets : Secrets)
       (today : Option Date) (env : AnnivEnv) (m : String) (tmpl : PImage),
       env.detect = DetectOutcome.raisesExc m →
       cfg.anniversary.template = some tmpl →
       ∃ p : Poster,
         generate_anniversary_poster emp cfg secrets today env =
           Except.ok p ∧ p.photo = none) := by
  refine ⟨?_, ?_, ?_⟩
  · intro img tw th hw hh
    have h0 : ¬ ((convertRGBA img).w = 0 ∨ (convertRGBA img).h = 0) := by
      simp only [convertRGBA]
      omega
    constructor
    · unfold prepare_anniversary_photo
      rw [face_aware_crop_eq (convertRGBA img) tw th DetectOutcome.unavailable h0 rfl,
        face_aware_crop_eq (convertRGBA img) tw th DetectOutcome.noFace h0 rfl]
      rfl
    · exact ⟨_, face_aware_crop_eq (convertRGBA img) tw th
        DetectOutcome.unavailable h0 rfl⟩
  · intro img tw th m hw hh
    have h0 : ¬ ((convertRGBA img).w = 0 ∨ (convertRGBA img).h = 0) := by
      simp only [convertRGBA]
      omega
    unfold prepare_anniversary_photo face_aware_crop
    rw [if_neg h0]
    rfl
  · intro emp cfg secrets today env m tmpl hdet htm
    simp only [generate_anniversary_poster]
    rw [htm]
    rw [hdet]
    refine ⟨_, rfl, ?_⟩
    show (if emp.photo_url ≠ "" then _ else none) = none
    by_cases hurl : emp.photo_url = ""
    · rw [if_neg (by simp [hurl])]
    · rw [if_pos hurl]
      cases hfetch : env.fetch with
      | error e => rfl
      | ok img =>
          obtain ⟨e, he⟩ := prepare_raisesExc_isError img
            cfg.anniversary.photo_box.w cfg.anniversary.photo_box.h m
          simp only [he]

/-- Claim C3 (amended), applied with a raising detector: the anniversary
poster is still produced, photo-less. -/
theorem C3_amended_detection_failure_handling_witness :
    ∃ p : Poster,
      generate_anniversary_poster sampleEmployee sampleCfg ⟨""⟩ none
        sampleAnnivEnv = Except.ok p ∧ p.photo = none :=
  C3_amended_detection_failure_handling.2.2 sampleEmployee sampleCfg ⟨""⟩
    none sampleAnnivEnv "boom" sampleTemplate rfl rfl

/-- Claim C5: `_build_text_lines` always returns exactly 4 lines — bold
name (title-cased for birthday, upper-cased otherwise), regular
designation, regular org line (`vertical - department` if both are
non-empty, else whichever is non-empty, else empty), regular location;
empty fields stay as empty lines. -/
theorem C5_build_text_lines_exact (emp : Employee) (poster_type : String) :
    build_text_lines emp poster_type =
      [(if poster_type = "birthday" then pyTitle (pyOrS emp.name "")
        else pyUpper (pyOrS emp.name ""), "bold"),
       (pyOrS emp.designation "", "regular"),
       (if pyOrS emp.vertical "" ≠ "" ∧ pyOrS emp.department "" ≠ "" then
          pyOrS emp.vertical "" ++ " - " ++ pyOrS emp.department ""
        else if pyOrS emp.vertical "" ≠ "" ∧ pyOrS emp.department "" = "" then
          pyOrS emp.vertical ""
        else if pyOrS emp.vertical "" = "" ∧ pyOrS emp.department "" ≠ "" then
          pyOrS emp.department ""
        else "", "regular"),
       (pyOrS emp.location "", "regular")] ∧
    (build_text_lines emp poster_type).length = 4 := by
  constructor
  · unfold build_text_lines
    rcases em (pyOrS emp.vertical "" = "") with hv | hv <;>
      rcases em (pyOrS emp.department "" = "") with hd | hd <;>
      simp [hv, hd]
  · rfl

/-- Claim C6: `_place_birthday_photo` contain-fits the photo
(`scale = min(boxW/photoW, boxH/photoH)` applied to both dimensions) and
anchors it bottom-left: the placed rectangle sits inside the box, touches
its bottom edge, and starts at the box's left edge. -/
theorem C6_birthday_placement (photo : PImage) (box : Box)
    (hpw : 0 < photo.w) (hph : 0 < photo.h)
    (hbw : 0 < box.w) (hbh : 0 < box.h) :
    ∃ pl : Placement,
      place_birthday_photo photo box = Except.ok pl ∧
      pl.w = pyRound ((photo.w : ℚ) *
        min ((box.w : ℚ) / (photo.w : ℚ)) ((box.h : ℚ) / (photo.h : ℚ))) ∧
      pl.h = pyRound ((photo.h : ℚ) *
        min ((box.w : ℚ) / (photo.w : ℚ)) ((box.h : ℚ) / (photo.h : ℚ))) ∧
      pl.x = box.x ∧ pl.y + pl.h = box.y + box.h ∧
      box.x ≤ pl.x ∧ pl.x + pl.w ≤ box.x + box.w ∧
      box.y ≤ pl.y ∧ pl.y + pl.h ≤ box.y + box.h := by
  have h0 : ¬ (photo.w = 0 ∨ photo.h = 0) := by omega
  have hpw' : (0 : ℚ) < (photo.w : ℚ) := by exact_mod_cast hpw
  have hph' : (0 : ℚ) < (photo.h : ℚ) := by exact_mod_cast hph
  have hbw' : (0 : ℚ) ≤ (box.w : ℚ) := by exact_mod_cast le_of_lt hbw
  have hbh' : (0 : ℚ) ≤ (box.h : ℚ) := by exact_mod_cast le_of_lt hbh
  set s : ℚ :=
    min ((box.w : ℚ) / (photo.w : ℚ)) ((box.h : ℚ) / (photo.h : ℚ)) with hs
  have hs0 : 0 ≤ s :=
    le_min (div_nonneg hbw' (le_of_lt hpw')) (div_nonneg hbh' (le_of_lt hph'))
  have hw_le : (photo.w : ℚ) * s ≤ (box.w : ℚ) := by
    have h1 : s ≤ (box.w : ℚ) / (photo.w : ℚ) := min_le_left _ _
    calc (photo.w : ℚ) * s
        ≤ (photo.w : ℚ) * ((box.w : ℚ) / (photo.w : ℚ)) :=
          mul_le_mul_of_nonneg_left h1 (le_of_lt hpw')
      _ = (box.w : ℚ) := by field_simp
  have hh_le : (photo.h : ℚ) * s ≤ (box.h : ℚ) := by
    have h1 : s ≤ (box.h : ℚ) / (photo.h : ℚ) := min_le_right _ _
    calc (photo.h : ℚ) * s
        ≤ (photo.h : ℚ) * ((box.h : ℚ) / (photo.h : ℚ)) :=
          mul_le_mul_of_nonneg_left h1 (le_of_lt hph')
      _ = (box.h : ℚ) := by field_simp
  have hnw1 : pyRound ((photo.w : ℚ) * s) ≤ box.w :=
    pyRound_le_of_le _ _ hw_le
  have hnh1 : pyRound ((photo.h : ℚ) * s) ≤ box.h :=
    pyRound_le_of_le _ _ hh_le
  have hnw0 : 0 ≤ pyRound ((photo.w : ℚ) * s) :=
    le_pyRound_of_le 0 _ (by push_cast; exact mul_nonneg (le_of_lt hpw') hs0)
  have hnh0 : 0 ≤ pyRound ((photo.h : ℚ) * s) :=
    le_pyRound_of_le 0 _ (by push_cast; exact mul_nonneg (le_of_lt hph') hs0)
  have heq : place_birthday_photo photo box = Except.ok
      ⟨box.x, box.y + box.h - pyRound ((photo.h : ℚ) * s),
       pyRound ((photo.w : ℚ) * s), pyRound ((photo.h : ℚ) * s)⟩ := by
    unfold place_birthday_photo
    rw [if_neg h0]
  exact ⟨_, heq, rfl, rfl, rfl, by simp only []; omega, by simp only []; omega,
    by simp only []; omega, by simp only []; omega, by simp only []; omega⟩

/-- Claim C6, applied to a 30×60 photo and the box ⟨10, 20, 40, 40⟩
(scale 2/3, scaled size 20×40, paste at (10, 20)). -/
theorem C6_birthday_placement_witness :
    ∃ pl : Placement,
      place_birthday_photo ⟨30, 60, "RGBA"⟩ ⟨10, 20, 40, 40⟩ =
        Except.ok pl ∧
      pl.w = pyRound (((30 : ℤ) : ℚ) *
        min (((40 : ℤ) : ℚ) / ((30 : ℤ) : ℚ))
            (((40 : ℤ) : ℚ) / ((60 : ℤ) : ℚ))) ∧
      pl.h = pyRound (((60 : ℤ) : ℚ) *
        min (((40 : ℤ) : ℚ) / ((30 : ℤ) : ℚ))
            (((40 : ℤ) : ℚ) / ((60 : ℤ) : ℚ))) ∧
      pl.x = 10 ∧ pl.y + pl.h = 20 + 40 ∧
      (10 : ℤ) ≤ pl.x ∧ pl.x + pl.w ≤ 10 + 40 ∧
      (20 : ℤ) ≤ pl.y ∧ pl.y + pl.h ≤ 20 + 40 :=
  C6_birthday_placement ⟨30, 60, "RGBA"⟩ ⟨10, 20, 40, 40⟩
    (by decide) (by decide) (by decide) (by decide)

/-- Claim C7: the anniversary poster's first drawn text is the ordinal of
`years` at the configured year-label position, where
`years = date.year - dateOfJoining.year` with no month or day adjustment,
and 0 when `dateOfJoining` is absent. -/
theorem C7_anniversary_year_label :
    (∀ (emp : Employee) (cfg : Cfg) (secrets : Secrets) (d : Date)
       (env : AnnivEnv) (tmpl : PImage) (j : Date),
       cfg.anniversary.template = some tmpl → emp.doj = some j →
       ∃ (p : Poster) (dt : DrawnText),
         generate_anniversary_poster emp cfg secrets (some d) env =
           Except.ok p ∧
         p.texts.head? = some dt ∧
         dt.text = ordinal (d.year - j.year) ∧
         dt.pos = (cfg.anniversary.year_label.x.getD 80,
                   cfg.anniversary.year_label.y.getD 80)) ∧
    (∀ (emp : Employee) (cfg : Cfg) (secrets : Secrets) (d : Date)
       (env : AnnivEnv) (tmpl : PImage),
       cfg.anniversary.template = some tmpl → emp.doj = none →
       ∃ (p : Poster) (dt : DrawnText),
         generate_anniversary_poster emp cfg secrets (some d) env =
           Except.ok p ∧
         p.texts.head? = some dt ∧
         dt.text = ordinal 0 ∧
         dt.pos = (cfg.anniversary.year_label.x.getD 80,
                   cfg.anniversary.year_label.y.getD 80)) := by
  constructor
  · intro emp cfg secrets d env tmpl j htm hdoj
    simp only [generate_anniversary_poster]
    rw [htm, hdoj]
    exact ⟨_, _, rfl, rfl, rfl, rfl⟩
  · intro emp cfg secrets d env tmpl htm hdoj
    simp only [generate_anniversary_poster]
    rw [htm, hdoj]
    exact ⟨_, _, rfl, rfl, rfl, rfl⟩

/-- Claim C7, applied to the sample employee (joined 2015) on target date
2024-06-01: the year label is `ordinal (2024 - 2015) = "9th"`. -/
theorem C7_anniversary_year_label_witness :
    ∃ (p : Poster) (dt : DrawnText),
      generate_anniversary_poster sampleEmployee sampleCfg ⟨""⟩
        (some ⟨2024, 6, 1⟩) sampleAnnivEnv = Except.ok p ∧
      p.texts.head? = some dt ∧
      dt.text = ordinal (2024 - 2015) ∧
      dt.pos = (sampleCfg.anniversary.year_label.x.getD 80,
                sampleCfg.anniversary.year_label.y.getD 80) :=
  C7_anniversary_year_label.1 sampleEmployee sampleCfg ⟨""⟩ ⟨2024, 6, 1⟩
    sampleAnnivEnv sampleTemplate ⟨2015, 6, 1⟩ rfl rfl

/-- Claim C8: `prepare_birthday_photo` (i.e. `remove_background` with 3
retries) always returns an RGBA image; with the SDK missing, or with all
3 attempts failing, it returns the original image converted to RGBA
rather than raising. -/
theorem C8_background_removal_fallback :
    (∀ (orig : PImage) (key : String) (sdk : Bool) (att : ℕ → Option PImage),
       ∃ img : PImage,
         prepare_birthday_photo orig key sdk att = some img ∧
         img.mode = "RGBA") ∧
    (∀ (orig : PImage) (key : String) (att : ℕ → Option PImage),
       prepare_birthday_photo orig key false att = some (convertRGBA orig)) ∧
    (∀ (orig : PImage) (key : String) (att : ℕ → Option PImage),
       att 0 = none → att 1 = none → att 2 = none →
       prepare_birthday_photo orig key true att = some (convertRGBA orig)) := by
  have hstep : ∀ (orig : PImage) (att : ℕ → Option PImage) (retries i : ℕ),
      i < retries →
      rbLoop orig att retries i =
        match att i with
        | some res => some (convertRGBA res)
        | none =>
            if i < retries - 1 then rbLoop orig att retries (i + 1)
            else some (convertRGBA orig) := by
    intro orig att retries i hi
    rw [rbLoop]
    rw [dif_pos hi]
  have hloop : ∀ (orig : PImage) (att : ℕ → Option PImage),
      ∃ img : PImage, rbLoop orig att 3 0 = some img ∧ img.mode = "RGBA" := by
    intro orig att
    rw [hstep orig att 3 0 (by omega)]
    cases h0 : att 0 with
    | some r => exact ⟨convertRGBA r, rfl, rfl⟩
    | none =>
        rw [if_pos (by omega : (0 : ℕ) < 3 - 1)]
        rw [hstep orig att 3 1 (by omega)]
        cases h1 : att 1 with
        | some r => exact ⟨convertRGBA r, rfl, rfl⟩
        | none =>
            rw [if_pos (by omega : (1 : ℕ) < 3 - 1)]
            rw [hstep orig att 3 2 (by omega)]
            cases h2 : att 2 with
            | some r => exact ⟨convertRGBA r, rfl, rfl⟩
            | none =>
                rw [if_neg (by omega : ¬ (2 : ℕ) < 3 - 1)]
                exact ⟨convertRGBA orig, rfl, rfl⟩
  refine ⟨?_, ?_, ?_⟩
  · intro orig key sdk att
    cases sdk with
    | false => exact ⟨convertRGBA orig, rfl, rfl⟩
    | true => exact hloop orig att
  · intro orig key att
    rfl
  · intro orig key att h0 h1 h2
    show rbLoop orig att 3 0 = some (convertRGBA orig)
    rw [hstep orig att 3 0 (by omega)]
    simp only [h0]
    rw [if_pos (by omega : (0 : ℕ) < 3 - 1)]
    rw [hstep orig att 3 1 (by omega)]
    simp only [h1]
    rw [if_pos (by omega : (1 : ℕ) < 3 - 1)]
    rw [hstep orig att 3 2 (by omega)]
    simp only [h2]
    rw [if_neg (by omega : ¬ (2 : ℕ) < 3 - 1)]

/-- Claim C8, applied to a 120×90 source with the SDK present and all
three attempts failing. -/
theorem C8_background_removal_fallback_witness :
    prepare_birthday_photo ⟨120, 90, "RGB"⟩ "key" true (fun _ => none) =
      some (convertRGBA ⟨120, 90, "RGB"⟩) :=
  C8_background_removal_fallback.2.2 ⟨120, 90, "RGB"⟩ "key" (fun _ => none)
    rfl rfl rfl

/-- Claim C9: a missing template is the configuration-class error that
propagates; with a template present, both generators return a poster whose
text block is drawn whatever the photo pipeline did; missing or unreadable
font files yield the default font. -/
theorem C9_error_propagation_policy :
    (∀ (emp : Employee) (cfg : Cfg) (secrets : Secrets) (today : Option Date)
       (env : BirthdayEnv), cfg.birthday.template = none →
       ∃ e, generate_birthday_poster emp cfg secrets today env =
         Except.error e) ∧
    (∀ (emp : Employee) (cfg : Cfg) (secrets : Secrets) (today : Option Date)
       (env : BirthdayEnv) (tmpl : PImage),
       cfg.birthday.template = some tmpl →
       ∃ p : Poster,
         generate_birthday_poster emp cfg secrets today env = Except.ok p ∧
         p.texts = draw_text_block (build_text_lines emp "birthday")
           cfg.birthday.text_block cfg.fonts env.fonts_fs) ∧
    (∀ (emp : Employee) (cfg : Cfg) (secrets : Secrets) (today : Option Date)
       (env : AnnivEnv), cfg.anniversary.template = none →
       ∃ e, generate_anniversary_poster emp cfg secrets today env =
         Except.error e) ∧
    (∀ (emp : Employee) (cfg : Cfg) (secrets : Secrets) (today : Option Date)
       (env : AnnivEnv) (tmpl : PImage),
       cfg.anniversary.template = some tmpl →
       ∃ (p : Poster) (yl : DrawnText),
         generate_anniversary_poster emp cfg secrets today env =
           Except.ok p ∧
         p.texts = yl :: draw_text_block (build_text_lines emp "anniversary")
           cfg.anniversary.text_block cfg.fonts env.fonts_fs) ∧
    (∀ (fs : String → Option Bool) (path : String) (size : ℤ),
       fs path ≠ some true → load_font fs path size = Font.default) := by
  refine ⟨?_, ?_, ?_, ?_, ?_⟩
  · intro emp cfg secrets today env h
    simp only [generate_birthday_poster]
    rw [h]
    exact ⟨_, rfl⟩
  · intro emp cfg secrets today env tmpl h
    simp only [generate_birthday_poster]
    rw [h]
    exact ⟨_, rfl, rfl⟩
  · intro emp cfg secrets today env h
    simp only [generate_anniversary_poster]
    rw [h]
    exact ⟨_, rfl⟩
  · intro emp cfg secrets today env tmpl h
    simp only [generate_anniversary_poster]
    rw [h]
    exact ⟨_, _, rfl, rfl⟩
  · intro fs path size hneq
    unfold load_font
    by_cases hp : path = ""
    · rw [if_neg (by simp [hp])]
    · rw [if_pos hp]
      cases hfs : fs path with
      | none => rfl
      | some b =>
          cases b with
          | true => exact absurd hfs hneq
          | false => rfl

/-- Claim C9, applied with a present template and a failing photo
download: the birthday poster is produced and its text block drawn. -/
theorem C9_error_propagation_policy_witness :
    ∃ p : Poster,
      generate_birthday_poster sampleEmployee sampleCfg ⟨""⟩ none
        sampleBirthdayEnv = Except.ok p ∧
      p.texts = draw_text_block (build_text_lines sampleEmployee "birthday")
        sampleCfg.birthday.text_block sampleCfg.fonts
        sampleBirthdayEnv.fonts_fs :=
  C9_error_propagation_policy.2.1 sampleEmployee sampleCfg ⟨""⟩ none
    sampleBirthdayEnv sampleTemplate rfl

/-- Claim C10: `generate_birthday_poster` never reads its date argument,
so for fixed employee, configuration, secrets and environment its output
is the same for any two dates. -/
theorem C10_birthday_date_independence (emp : Employee) (cfg : Cfg)
    (secrets : Secrets) (env : BirthdayEnv) (d1 d2 : Option Date) :
    generate_birthday_poster emp cfg secrets d1 env =
      generate_birthday_poster emp cfg secrets d2 env := rfl

end AutoGreet
